import Mathlib

/-
Verification development for the agent-toolkit video skills.

The definitions below are a shallow embedding of the two orchestration
scripts `skills/videodb-search/scripts/search.py` and
`skills/videodb-scene-index/scripts/scene_index.py`.  Backend calls
(search, upload, index creation, index listing, stream compilation) are
modelled as oracles supplied as parameters; every oracle response is a
value or an exception carrying its message string, mirroring Python
exception flow.  Machine-level details the claims do not touch
(the YouTube-URL regular expression, the pass-through creation
parameters, JSON parsing of argv) are abstracted as parameters and
documented at each definition.
-/

namespace AgentToolkit

/-- Outcome of a Python expression that may raise: a value or an
exception carrying `str(e)`. -/
inductive Exc (α : Type) where
  | ok (a : α)
  | exn (msg : String)
deriving DecidableEq

/-- Observable backend events, in order of occurrence: a search call,
a `list_scene_index` call, an index-creation call, an upload, a stream
compilation, or a sleep of the given number of time-units. -/
inductive Ev where
  | search
  | listIdx
  | create
  | upload
  | compile
  | sleep (n : Nat)
deriving DecidableEq

/-- Number of occurrences of an event in a trace. -/
def countEv (e : Ev) (l : List Ev) : Nat :=
  (l.filter (fun x => x = e)).length

/-- `charsHavePre s pat` is true when `pat` is a prefix of `s`
(`Python: s.startswith(pat)` on character lists). -/
def charsHavePre : List Char → List Char → Bool
  | _, [] => true
  | [], _ :: _ => false
  | c :: cs, d :: ds => c == d && charsHavePre cs ds

/-- `charsHaveSub s pat`: `pat` occurs as a contiguous substring of `s`
(Python's `pat in s`). -/
def charsHaveSub : List Char → List Char → Bool
  | [], pat => pat.isEmpty
  | s@(_ :: rest), pat => charsHavePre s pat || charsHaveSub rest pat

/-- Python's `pat in s` on strings. -/
def strContainsSub (s pat : String) : Bool :=
  charsHaveSub s.data pat.data

/-- A JSON value, as produced by `json.loads`. -/
inductive JVal where
  | null
  | bool (b : Bool)
  | num (q : Rat)
  | str (s : String)
  | arr (elems : List JVal)
  | obj (fields : List (String × JVal))

/-- Python truthiness of a JSON value (`None`, `False`, `0`, `""`,
`[]`, `{}` are falsy).  A rational is zero exactly when its reduced
numerator is zero. -/
def JVal.truthy : JVal → Bool
  | .null => false
  | .bool b => b
  | .num q => q.num != 0
  | .str s => !s.isEmpty
  | .arr l => !l.isEmpty
  | .obj l => !l.isEmpty

/-- Python `v == "lit"` for a JSON value `v`: true exactly when `v` is
that string (comparison with other types yields `False`, no error). -/
def JVal.eqStr : JVal → String → Bool
  | .str s, t => s == t
  | _, _ => false

/-- Keyword-argument lookup with a default: the value bound to `k` in
the parsed JSON object, or `dflt` when the key is absent. -/
def getArg (args : List (String × JVal)) (k : String) (dflt : JVal) : JVal :=
  match args.find? (fun p => p.1 == k) with
  | some p => p.2
  | none => dflt

/-- `10 ^ d` as a natural number. -/
def tenPowNat : Nat → Nat
  | 0 => 1
  | n + 1 => 10 * tenPowNat n

/-- Python 3 `round` to an integer on an exact rational: round half to
even (banker's rounding).  Python operates on the binary-float
representation of its argument; on the decimal values appearing in the
claims (none of which sits at a representable tie) the two agree.
Implemented on the reduced numerator and denominator so that it
evaluates by kernel reduction: with `f = ⌊y⌋` and remainder
`r = y.num - f * y.den` the fractional part compares to `1/2` as
`2 * r` compares to `y.den`. -/
def ratRoundHalfEven (y : Rat) : Int :=
  let f : Int := y.floor
  let r : Int := y.num - f * (y.den : Int)
  if 2 * r < (y.den : Int) then f
  else if (y.den : Int) < 2 * r then f + 1
  else if f % 2 = 0 then f else f + 1

/-- Python `round(x, d)`: round to `d` decimal places.
`x * 10 ^ d` is formed exactly as `(x.num * 10 ^ d) / x.den`. -/
def pyRound (x : Rat) (d : Nat) : Rat :=
  mkRat (ratRoundHalfEven (mkRat (x.num * (tenPowNat d : Int)) x.den)) (tenPowNat d)

/-- Python `s.lower()`.  (`String.toLower` from the library does not
kernel-reduce, so the map over characters is spelled out.) -/
def lowerStr (s : String) : String :=
  String.mk (s.data.map Char.toLower)

/-- A backend video object as consumed by the scripts: `v.id`,
`getattr(v, 'name', '')` and `getattr(v, 'source', '')`. -/
structure VideoH where
  id : String
  name : String := ""
  source : String := ""
deriving DecidableEq

/-- A raw result shot as returned by the backend.  `start`/`end` are
always present (accessed directly); the remaining attributes are read
with `getattr(shot, _, None)`-style fallbacks, hence `Option`. -/
structure Shot where
  start : Rat
  «end» : Rat
  text : String := ""
  search_score : Option Rat := none
  score : Option Rat := none
  relevance_score : Option Rat := none
  confidence : Option Rat := none
  stream_url : Option String := none
  video_id : Option String := none
deriving DecidableEq

/-- Score extraction, `search.py` lines 208-213 / `scene_index.py`
lines 286-291: try `search_score`, `score`, `relevance_score`,
`confidence` in order, keeping the first non-`None` value. -/
def extractScore (s : Shot) : Option Rat :=
  match s.search_score with
  | some v => some v
  | none =>
    match s.score with
    | some v => some v
    | none =>
      match s.relevance_score with
      | some v => some v
      | none => s.confidence

/-- A formatted shot of the scene-index skill (`scene_index.py`
lines 293-299). -/
structure FormattedShot where
  start : Rat
  «end» : Rat
  description : String
  score : Option Rat
  stream_url : Option String
deriving DecidableEq

/-- `scene_index.py` lines 285-299: one formatted scene shot. -/
def formatShot (s : Shot) : FormattedShot :=
  { start := pyRound s.start 1
    «end» := pyRound s.«end» 1
    description := s.text
    score := (extractScore s).map (fun v => pyRound v 3)
    stream_url := s.stream_url }

/-- A formatted shot of the search skill (`search.py` lines 215-222);
`video_id` falls back to the enclosing request's video id, which can be
any JSON value. -/
structure FormattedShotS where
  video_id : JVal
  start : Rat
  «end» : Rat
  text : String
  score : Option Rat
  stream_url : Option String

/-- `search.py` lines 207-222: one formatted search shot. -/
def formatShotS (dfltVid : JVal) (s : Shot) : FormattedShotS :=
  { video_id := match s.video_id with
      | some i => .str i
      | none => dfltVid
    start := pyRound s.start 1
    «end» := pyRound s.«end» 1
    text := s.text
    score := (extractScore s).map (fun v => pyRound v 3)
    stream_url := s.stream_url }

/-- An existing scene-index descriptor; its `status` is the free-text
string the classifier inspects (`scene_index.py` lines 226-227). -/
structure IndexDescriptor where
  status : String
deriving DecidableEq

/-- Response of one `video.list_scene_index()` call: a descriptor
list, an `AttributeError` (method absent), or any other exception. -/
inductive ListResp where
  | ok (l : List IndexDescriptor)
  | attrErr
  | exn (msg : String)

/-- `scene_index.py` line 228: a status counts as ready when its
lower-cased text contains `"done"` or `"ready"`. -/
def isReadyStatus (status : String) : Bool :=
  strContainsSub (lowerStr status) "done" || strContainsSub (lowerStr status) "ready"

/-- `scene_index.py` lines 222-232 (`get_ready_index`): list the scene
indexes and look for a ready status; the bare `except:` turns every
exception from listing or classification into `False`. -/
def get_ready_index (r : ListResp) : Bool :=
  match r with
  | .ok l => l.any (fun d => isReadyStatus d.status)
  | .attrErr => false
  | .exn _ => false

/-- `scene_index.py` lines 251-255, the poll loop body: each iteration
sleeps 10 time-units, then re-checks readiness; `listResp i` is the
response to the i-th `list_scene_index` call of the run.  Returns
whether readiness was observed together with the events performed. -/
def pollScene (listResp : Nat → ListResp) : Nat → Nat → Bool × List Ev
  | 0, _ => (false, [])
  | fuel + 1, i =>
    if get_ready_index (listResp i) then (true, [Ev.sleep 10, Ev.listIdx])
    else
      let r := pollScene listResp fuel (i + 1)
      (r.1, Ev.sleep 10 :: Ev.listIdx :: r.2)

/-- `scene_index.py` lines 235-255 (`ensure_scene_index`): short-cut
if already ready (`listResp 0`); otherwise create the index
(`createResp`; an exception there propagates) and poll up to 30 times.
Result `Exc.ok b` is the Python return value `b`; `Exc.exn` is a
propagating exception. -/
def ensure_scene_index (listResp : Nat → ListResp) (createResp : Exc Unit) :
    Exc Bool × List Ev :=
  if get_ready_index (listResp 0) then (Exc.ok true, [Ev.listIdx])
  else
    match createResp with
    | .exn m => (Exc.exn m, [Ev.listIdx, Ev.create])
    | .ok _ =>
      let r := pollScene listResp 30 1
      (Exc.ok r.1, Ev.listIdx :: Ev.create :: r.2)

/-- The dedup predicate of `get_video_from_url` (`search.py` line
153-154 / `scene_index.py` lines 144-145): the URL token is truthy
(present and non-empty) and occurs in `str(name) + str(source)`. -/
def urlMatch (ytId : Option String) (v : VideoH) : Bool :=
  match ytId with
  | some t => !t.isEmpty && strContainsSub (v.name ++ v.source) t
  | none => false

/-- `scene_index.py` lines 140-147 (`get_video_from_url`): linear scan
of the collection for the first `sourceDescriptor` match; on no match,
upload.  `ytId` is the result of `extract_youtube_id` on the URL
(abstracted: no claim depends on the regular expression's internals);
`uploadResp` is the backend's response to `collection.upload`. -/
def get_video_from_url_scene (ytId : Option String) (videos : List VideoH)
    (uploadResp : Exc VideoH) : Exc VideoH × List Ev :=
  match videos.find? (urlMatch ytId) with
  | some v => (Exc.ok v, [])
  | none =>
    match uploadResp with
    | .ok v => (Exc.ok v, [Ev.upload])
    | .exn m => (Exc.exn m, [Ev.upload])

/-- `search.py` lines 147-158 (`get_video_from_url`): same scan; also
reports whether the video is newly uploaded. -/
def get_video_from_url (ytId : Option String) (videos : List VideoH)
    (uploadResp : Exc VideoH) : Exc (VideoH × Bool) × List Ev :=
  match videos.find? (urlMatch ytId) with
  | some v => (Exc.ok (v, false), [])
  | none =>
    match uploadResp with
    | .ok v => (Exc.ok (v, true), [Ev.upload])
    | .exn m => (Exc.exn m, [Ev.upload])

/-- Process environment as the scripts see it: whether `import
videodb` succeeds and the value of `VIDEODB_API_KEY` (absent or the
string, possibly empty). -/
structure EnvModel where
  hasVideodb : Bool
  apiKey : Option String

/-- Result of running a skill function: a returned dictionary, or an
exception escaping the function (only possible outside its `try`
block). -/
inductive PyResult (α : Type) where
  | ret (out : α)
  | raised (msg : String)

/-- Result of a skill's `main`: exactly one JSON object printed on
standard output followed by `sys.exit`, or an uncaught exception
(traceback, no JSON object on standard output). -/
inductive MainResult (α : Type) where
  | printed (out : α) (exitCode : Nat)
  | uncaught (msg : String)

/-- Backend oracle for one run of `scene_index.py`.  Each field is the
backend's response at the corresponding call site; numbered oracles
give the response to the n-th call of that kind in the run. -/
structure SceneBackend where
  videos : List VideoH
  ytIdOf : String → Option String
  uploadResp : Exc VideoH
  getVideoResp : JVal → Exc (Option VideoH)
  searchResp : Nat → Exc (List Shot)
  listResp : Nat → ListResp
  createResp : Exc Unit
  compileResp : Exc String

/-- Output dictionary of `scene_index.py`.  Fields absent from a given
return path are `none`; `message` carries the Python text only where
it is a fixed literal or a claim depends on it (interpolated f-string
texts are elided as `none`). -/
structure SceneOut where
  success : Bool
  error : Option String := none
  message : Option String := none
  action : Option String := none
  video_id : Option JVal := none
  query : Option JVal := none
  results : Option (List FormattedShot) := none
  total_results : Option Nat := none
  compiled_stream_url : Option String := none
  indexes : Option (List IndexDescriptor) := none

/-- `scene_index.py` line 267: the recovery classification of a
first-attempt failure message, by case-insensitive substring match. -/
def sceneNeedsIdx (m : String) : Bool :=
  strContainsSub (lowerStr m) "not indexed" || strContainsSub (lowerStr m) "no scene" ||
    strContainsSub (lowerStr m) "no results"

/-- `scene_index.py` lines 313-334, the outer exception handler:
classify the escaped exception text into `NOT_INDEXED`, `PROCESSING`
or the catch-all `SCENE_INDEX_ERROR` carrying the raw text. -/
def sceneHandler (m : String) : SceneOut :=
  if strContainsSub (lowerStr m) "not indexed" || strContainsSub (lowerStr m) "no scene" then
    { success := false, error := some "NOT_INDEXED",
      message := some "No scene index found. Create one first with action='create'." }
  else if strContainsSub (lowerStr m) "processing" then
    { success := false, error := some "PROCESSING",
      message := some "Scene index is being created. Try again in a few minutes." }
  else
    { success := false, error := some "SCENE_INDEX_ERROR", message := some m }

/-- `scene_index.py` lines 275-279: the timeout return value. -/
def sceneTimeoutOut : SceneOut :=
  { success := false, error := some "INDEXING_TIMEOUT",
    message := some "Scene indexing is taking longer than expected. Try again later." }

/-- `scene_index.py` lines 303-311: the success dictionary of the
search action. -/
def mkSceneSuccess (vid q : JVal) (formatted : List FormattedShot)
    (compiled : Option String) : SceneOut :=
  { success := true, action := some "search", video_id := some vid, query := some q,
    results := some formatted, total_results := some formatted.length,
    compiled_stream_url := compiled }

/-- `scene_index.py` lines 283-311: format the shots and compile a
stream only when the shot list is non-empty (`results.compile() if
shots else None`); an exception from `compile` escapes to the outer
handler. -/
def sceneFinish (compileResp : Exc String) (vid q : JVal) (shots : List Shot) :
    SceneOut × List Ev :=
  let formatted := shots.map formatShot
  if shots.isEmpty then (mkSceneSuccess vid q formatted none, [])
  else
    match compileResp with
    | .exn m => (sceneHandler m, [Ev.compile])
    | .ok u => (mkSceneSuccess vid q formatted (some u), [Ev.compile])

/-- `scene_index.py` lines 265-281, the `except` branch of the first
search attempt: if the failure text classifies as "needs index", run
`ensure_scene_index` and on success reissue the search exactly once
(its own failure escapes to the outer handler); on poll exhaustion
return the timeout dictionary; unclassified failures re-raise to the
outer handler. -/
def sceneRecover (b : SceneBackend) (vid q : JVal) (m : String) : SceneOut × List Ev :=
  if sceneNeedsIdx m then
    match ensure_scene_index b.listResp b.createResp with
    | (.exn m2, evs) => (sceneHandler m2, evs)
    | (.ok true, evs) =>
      match b.searchResp 1 with
      | .ok shots =>
        let r := sceneFinish b.compileResp vid q shots
        (r.1, evs ++ Ev.search :: r.2)
      | .exn m2 => (sceneHandler m2, evs ++ [Ev.search])
    | (.ok false, evs) => (sceneTimeoutOut, evs)
  else (sceneHandler m, [])

/-- `scene_index.py` lines 257-311, the search action after video
resolution: first attempt; an empty shot set raises
`"No results - may need indexing"` (line 264), any exception goes to
the recovery classifier. -/
def sceneSearchCore (b : SceneBackend) (vid q : JVal) : SceneOut × List Ev :=
  match b.searchResp 0 with
  | .ok shots =>
    if shots.isEmpty then
      let r := sceneRecover b vid q "No results - may need indexing"
      (r.1, Ev.search :: r.2)
    else
      let r := sceneFinish b.compileResp vid q shots
      (r.1, Ev.search :: r.2)
  | .exn m =>
    let r := sceneRecover b vid q m
    (r.1, Ev.search :: r.2)

/-- `scene_index.py` lines 163-311: dispatch on the action once the
video is resolved.  The create action's config/prompt parameters are
passed through opaquely and elided. -/
def sceneDispatch (b : SceneBackend) (vid query action : JVal) : SceneOut × List Ev :=
  if action.eqStr "create" then
    match b.createResp with
    | .exn m => (sceneHandler m, [Ev.create])
    | .ok _ =>
      ({ success := true, action := some "create", video_id := some vid,
         message := some "Scene index created successfully" }, [Ev.create])
  else if action.eqStr "list" then
    match b.listResp 0 with
    | .ok l =>
      ({ success := true, action := some "list", video_id := some vid,
         indexes := some l }, [Ev.listIdx])
    | .attrErr =>
      ({ success := true, action := some "list", video_id := some vid,
         message := some "List operation may not be available. Try searching directly." },
       [Ev.listIdx])
    | .exn m => (sceneHandler m, [Ev.listIdx])
  else sceneSearchCore b vid query

/-- `scene_index.py` lines 149-161: resolve the video by URL or id
inside the `try` block.  A truthy non-string URL makes
`re.search` raise `TypeError("expected string or bytes-like object")`,
caught by the outer handler. -/
def sceneResolve (b : SceneBackend) (video_id url action query : JVal) :
    SceneOut × List Ev :=
  if url.truthy then
    match url with
    | .str us =>
      match get_video_from_url_scene (b.ytIdOf us) b.videos b.uploadResp with
      | (.ok v, evs) =>
        let r := sceneDispatch b (.str v.id) query action
        (r.1, evs ++ r.2)
      | (.exn m, evs) => (sceneHandler m, evs)
    | _ => (sceneHandler "expected string or bytes-like object", [])
  else
    match b.getVideoResp video_id with
    | .exn m => (sceneHandler m, [])
    | .ok none =>
      ({ success := false, error := some "VIDEO_NOT_FOUND" }, [])
    | .ok (some _v) => sceneDispatch b video_id query action

/-- `scene_index.py` lines 65-334 (`scene_index`): dependency, API
key, action and argument validation, then the `try` block.  Creation
parameters (`prompt`, `extraction_type`, `time_interval`,
`frame_count`, `index_id`) are passed through opaquely and elided. -/
def scene_index (env : EnvModel) (b : SceneBackend)
    (video_id url action query : JVal) : SceneOut × List Ev :=
  if !env.hasVideodb then
    ({ success := false, error := some "MISSING_DEPENDENCY",
       message := some "Install videodb: pip install videodb" }, [])
  else
    match env.apiKey with
    | none =>
      ({ success := false, error := some "MISSING_API_KEY",
         message := some "Set VIDEODB_API_KEY environment variable" }, [])
    | some k =>
      if k.isEmpty then
        ({ success := false, error := some "MISSING_API_KEY",
           message := some "Set VIDEODB_API_KEY environment variable" }, [])
      else if !(action.eqStr "create" || action.eqStr "search" || action.eqStr "list") then
        ({ success := false, error := some "INVALID_ACTION" }, [])
      else if action.eqStr "search" && !query.truthy then
        ({ success := false, error := some "MISSING_QUERY",
           message := some "query is required for search action" }, [])
      else if !video_id.truthy && !url.truthy then
        ({ success := false, error := some "MISSING_VIDEO_ID",
           message := some "video_id or url is required" }, [])
      else sceneResolve b video_id url action query

/-- The declared keyword parameters of `scene_index` (lines 65-74);
`scene_index(**args)` raises `TypeError` on any other key. -/
def sceneParams : List String :=
  ["video_id", "url", "action", "query", "prompt", "extraction_type",
   "time_interval", "frame_count", "index_id"]

/-- `scene_index.py` lines 337-370 (`main`), after `json.loads`
produced an object: validate that `video_id` or `url` is present, bind
the keyword arguments, run, print the one result object and exit 0 on
`success` else 1. -/
def mainScene (env : EnvModel) (b : SceneBackend) (args : List (String × JVal)) :
    MainResult SceneOut × List Ev :=
  if !(args.any (fun p => p.1 == "video_id")) && !(args.any (fun p => p.1 == "url")) then
    (.printed { success := false, error := some "MISSING_VIDEO_ID",
                message := some "video_id or url is required" } 1, [])
  else if !(args.all (fun p => sceneParams.contains p.1)) then
    (.uncaught "TypeError: scene_index() got an unexpected keyword argument", [])
  else
    let r := scene_index env b (getArg args "video_id" .null) (getArg args "url" .null)
      (getArg args "action" (.str "search")) (getArg args "query" .null)
    (.printed r.1 (if r.1.success then 0 else 1), r.2)

/-- Backend oracle for one run of `search.py`.  `videoSearch n` is
the response to the n-th `video.search` call; `indexUrlResp` and
`indexRetryResp` are the responses to the `ensure_indexed` index call
at its two call sites (line 174, URL pre-indexing, and line 193,
recovery). -/
structure SearchBackend where
  videos : List VideoH
  ytIdOf : String → Option String
  uploadResp : Exc VideoH
  getVideoResp : JVal → Exc (Option VideoH)
  videoSearch : Nat → Exc (List Shot)
  collectionSearch : Exc (List Shot)
  indexUrlResp : Exc Unit
  indexRetryResp : Exc Unit
  compileResp : Exc String

/-- Output dictionary of `search.py`; same conventions as
`SceneOut`. -/
structure SearchOut where
  success : Bool
  error : Option String := none
  message : Option String := none
  query : Option JVal := none
  scope : Option JVal := none
  video_id : Option JVal := none
  results : Option (List FormattedShotS) := none
  total_results : Option Nat := none
  compiled_stream_url : Option String := none

/-- `search.py` lines 237-245, the outer exception handler: an
escaped exception whose lower-cased text contains `"not indexed"`
becomes `NOT_INDEXED`; anything else becomes the catch-all
`SEARCH_ERROR` carrying the raw text. -/
def searchHandler (m : String) : SearchOut :=
  if strContainsSub (lowerStr m) "not indexed" then
    { success := false, error := some "NOT_INDEXED",
      message := some "Video not indexed. Run video.index_spoken_words() first." }
  else
    { success := false, error := some "SEARCH_ERROR", message := some m }

/-- `search.py` lines 134-144 (`ensure_indexed`): issue the indexing
call; an `"already"` error is swallowed, any other exception
re-raises. -/
def ensure_indexed (indexResp : Exc Unit) : Exc Unit × List Ev :=
  (match indexResp with
   | .ok _ => Exc.ok ()
   | .exn m =>
     if strContainsSub (lowerStr m) "already" then Exc.ok () else Exc.exn m,
   [Ev.create])

/-- `search.py` lines 227-235: the success dictionary. -/
def mkSearchSuccess (q scope vid : JVal) (formatted : List FormattedShotS)
    (compiled : Option String) : SearchOut :=
  { success := true, query := some q, scope := some scope, video_id := some vid,
    results := some formatted, total_results := some formatted.length,
    compiled_stream_url := compiled }

/-- `search.py` lines 204-235: format the shots and compile a stream
only when the shot list is non-empty (`results.compile() if shots
else None`); an exception from `compile` escapes to the outer
handler. -/
def searchFinish (compileResp : Exc String) (q scope vid : JVal) (shots : List Shot) :
    SearchOut × List Ev :=
  let formatted := shots.map (formatShotS vid)
  if shots.isEmpty then (mkSearchSuccess q scope vid formatted none, [])
  else
    match compileResp with
    | .exn m => (searchHandler m, [Ev.compile])
    | .ok u => (mkSearchSuccess q scope vid formatted (some u), [Ev.compile])

/-- `search.py` lines 180-202: the video-scope search attempt.  On a
first-attempt failure whose lower-cased text contains `"not indexed"`
or `"index"`, run `ensure_indexed` and reissue the identical search
exactly once; the second attempt's exception (like an unclassified
first failure) escapes to the outer handler. -/
def searchAttempt (b : SearchBackend) (q scope vid : JVal) : SearchOut × List Ev :=
  match b.videoSearch 0 with
  | .ok shots =>
    let r := searchFinish b.compileResp q scope vid shots
    (r.1, Ev.search :: r.2)
  | .exn m =>
    if strContainsSub (lowerStr m) "not indexed" || strContainsSub (lowerStr m) "index" then
      match ensure_indexed b.indexRetryResp with
      | (.exn m2, evs) => (searchHandler m2, Ev.search :: evs)
      | (.ok _, evs) =>
        match b.videoSearch 1 with
        | .ok shots =>
          let r := searchFinish b.compileResp q scope vid shots
          (r.1, Ev.search :: evs ++ Ev.search :: r.2)
        | .exn m2 => (searchHandler m2, Ev.search :: evs ++ [Ev.search])
    else (searchHandler m, [Ev.search])

/-- `search.py` lines 129-235, the `try` block: collection scope
issues a single collection search; video scope resolves the video by
URL (with pre-indexing) or id and runs the attempt logic.  A truthy
non-string URL makes `re.search` raise
`TypeError("expected string or bytes-like object")` inside the try. -/
def searchBody (b : SearchBackend) (query video_id url scope : JVal) :
    SearchOut × List Ev :=
  if scope.eqStr "collection" then
    match b.collectionSearch with
    | .exn m => (searchHandler m, [Ev.search])
    | .ok shots =>
      let r := searchFinish b.compileResp query scope video_id shots
      (r.1, Ev.search :: r.2)
  else
    if url.truthy then
      match url with
      | .str us =>
        match get_video_from_url (b.ytIdOf us) b.videos b.uploadResp with
        | (.exn m, evs) => (searchHandler m, evs)
        | (.ok (v, _isNew), evs) =>
          match ensure_indexed b.indexUrlResp with
          | (.exn m, evs2) => (searchHandler m, evs ++ evs2)
          | (.ok _, evs2) =>
            let r := searchAttempt b query scope (.str v.id)
            (r.1, evs ++ evs2 ++ r.2)
      | _ => (searchHandler "expected string or bytes-like object", [])
    else
      match b.getVideoResp video_id with
      | .exn m => (searchHandler m, [])
      | .ok none => ({ success := false, error := some "VIDEO_NOT_FOUND" }, [])
      | .ok (some _v) => searchAttempt b query scope video_id

/-- `search.py` lines 64-245 (`search_videodb`): dependency, API key
and argument validation, search/index type mapping (a non-string
`search_type` or `index_type` raises `AttributeError` at `.lower()`
before the `try` block, escaping the function), then the `try` block.
`result_threshold` and `score_threshold` are passed through opaquely
and elided. -/
def search_videodb (env : EnvModel) (b : SearchBackend)
    (query video_id url scope search_type index_type : JVal) :
    PyResult SearchOut × List Ev :=
  if !env.hasVideodb then
    (.ret { success := false, error := some "MISSING_DEPENDENCY",
            message := some "Install videodb: pip install videodb" }, [])
  else
    match env.apiKey with
    | none =>
      (.ret { success := false, error := some "MISSING_API_KEY",
              message := some "Set VIDEODB_API_KEY environment variable" }, [])
    | some k =>
      if k.isEmpty then
        (.ret { success := false, error := some "MISSING_API_KEY",
                message := some "Set VIDEODB_API_KEY environment variable" }, [])
      else if scope.eqStr "video" && !video_id.truthy && !url.truthy then
        (.ret { success := false, error := some "MISSING_VIDEO_ID",
                message := some "video_id or url required when scope is 'video'" }, [])
      else
        match search_type with
        | .str sts =>
          match index_type with
          | .str its =>
            if !(lowerStr sts == "semantic" || lowerStr sts == "keyword") then
              (.ret { success := false, error := some "INVALID_SEARCH_TYPE",
                      message := some "Use 'semantic' or 'keyword'" }, [])
            else if !(lowerStr its == "spoken_word" || lowerStr its == "scene") then
              (.ret { success := false, error := some "INVALID_INDEX_TYPE",
                      message := some "Use 'spoken_word' or 'scene'" }, [])
            else
              let r := searchBody b query video_id url scope
              (.ret r.1, r.2)
          | _ => (.raised "AttributeError: object has no attribute lower", [])
        | _ => (.raised "AttributeError: object has no attribute lower", [])

/-- The declared keyword parameters of `search_videodb` (lines
64-73); `search_videodb(**args)` raises `TypeError` on any other
key. -/
def searchParams : List String :=
  ["query", "video_id", "url", "scope", "search_type", "index_type",
   "result_threshold", "score_threshold"]

/-- `search.py` lines 248-277 (`main`), after `json.loads` produced
an object: validate that `query` is present, bind the keyword
arguments, run, print the one result object and exit 0 on `success`
else 1. -/
def mainSearch (env : EnvModel) (b : SearchBackend) (args : List (String × JVal)) :
    MainResult SearchOut × List Ev :=
  if !(args.any (fun p => p.1 == "query")) then
    (.printed { success := false, error := some "MISSING_QUERY",
                message := some "query is required" } 1, [])
  else if !(args.all (fun p => searchParams.contains p.1)) then
    (.uncaught "TypeError: search_videodb() got an unexpected keyword argument", [])
  else
    let r := search_videodb env b (getArg args "query" .null) (getArg args "video_id" .null)
      (getArg args "url" .null) (getArg args "scope" (.str "video"))
      (getArg args "search_type" (.str "semantic")) (getArg args "index_type" (.str "spoken_word"))
    ((match r.1 with
      | .ret out => MainResult.printed out (if out.success then 0 else 1)
      | .raised m => MainResult.uncaught m), r.2)

/-- `true` when the JSON value is a string. -/
def isStrJV : JVal → Bool
  | .str _ => true
  | _ => false

/-- Whether a first search attempt routes the scene skill into
recovery: an empty shot set (which raises the
`"No results - may need indexing"` signal) or an exception whose text
classifies as "needs index". -/
def firstAttemptTriggers (r : Exc (List Shot)) : Bool :=
  match r with
  | .ok shots => shots.isEmpty
  | .exn m => sceneNeedsIdx m

theorem countEv_nil (e : Ev) : countEv e [] = 0 := rfl

theorem countEv_cons (e x : Ev) (l : List Ev) :
    countEv e (x :: l) = (if x = e then 1 else 0) + countEv e l := by
  by_cases h : x = e <;> simp [countEv, List.filter_cons, h, Nat.add_comm]

theorem countEv_append (e : Ev) (l₁ l₂ : List Ev) :
    countEv e (l₁ ++ l₂) = countEv e l₁ + countEv e l₂ := by
  simp [countEv, List.filter_append]

/-- When readiness is never observed, the poll loop runs out all its
fuel, sleeping 10 time-units before each readiness check. -/
theorem pollScene_neverReady (lr : Nat → ListResp)
    (h : ∀ i, get_ready_index (lr i) = false) :
    ∀ fuel i, pollScene lr fuel i =
      (false, (List.replicate fuel [Ev.sleep 10, Ev.listIdx]).flatten) := by
  intro fuel
  induction fuel with
  | zero => intro i; rfl
  | succ n ih =>
    intro i
    unfold pollScene
    rw [h i]
    simp [ih (i + 1), List.replicate_succ]

/-- When readiness is never observed, `ensure_scene_index` issues the
create call and performs exactly 30 poll iterations, each a sleep of
10 time-units followed by a readiness check, then returns `False`. -/
theorem ensure_neverReady (lr : Nat → ListResp)
    (h : ∀ i, get_ready_index (lr i) = false) :
    ensure_scene_index lr (Exc.ok ()) =
      (Exc.ok false,
       Ev.listIdx :: Ev.create :: (List.replicate 30 [Ev.sleep 10, Ev.listIdx]).flatten) := by
  unfold ensure_scene_index
  rw [h 0]
  simp [pollScene_neverReady lr h 30 1]

/-- The event trace of `ensure_scene_index` always begins with the
initial readiness check. -/
theorem ensure_events_head (lr : Nat → ListResp) (cr : Exc Unit) :
    ∃ t, (ensure_scene_index lr cr).2 = Ev.listIdx :: t := by
  unfold ensure_scene_index
  by_cases h : get_ready_index (lr 0)
  · rw [h]; exact ⟨[], rfl⟩
  · rw [Bool.of_not_eq_true h]
    cases cr with
    | exn m => exact ⟨[Ev.create], rfl⟩
    | ok u => exact ⟨Ev.create :: (pollScene lr 30 1).2, rfl⟩

/-- A triggering first attempt followed by a never-successful
readiness check drives the scene search action to the
`INDEXING_TIMEOUT` outcome after one create call and 30 polls. -/
theorem sceneCore_timeout (b : SceneBackend) (vid q : JVal)
    (h : ∀ i, get_ready_index (b.listResp i) = false)
    (hc : b.createResp = Exc.ok ())
    (hfirst : firstAttemptTriggers (b.searchResp 0) = true) :
    sceneSearchCore b vid q =
      (sceneTimeoutOut,
       Ev.search :: Ev.listIdx :: Ev.create ::
         (List.replicate 30 [Ev.sleep 10, Ev.listIdx]).flatten) := by
  have hens := ensure_neverReady b.listResp h
  rw [← hc] at hens
  unfold sceneSearchCore
  cases hr : b.searchResp 0 with
  | ok shots =>
    rw [hr] at hfirst
    simp only [firstAttemptTriggers] at hfirst
    simp +decide [hfirst, sceneRecover, hens]
  | exn m =>
    rw [hr] at hfirst
    simp only [firstAttemptTriggers] at hfirst
    simp [hfirst, sceneRecover, hens]

/-- A recovery cycle on a classified first-attempt failure always
performs at least one readiness check (a `list_scene_index` call). -/
theorem sceneRecover_listIdx (b : SceneBackend) (vid q : JVal) (m : String)
    (hm : sceneNeedsIdx m = true) :
    1 ≤ countEv Ev.listIdx (sceneRecover b vid q m).2 := by
  obtain ⟨t, ht⟩ := ensure_events_head b.listResp b.createResp
  unfold sceneRecover
  rw [if_pos hm]
  rcases hE : ensure_scene_index b.listResp b.createResp with ⟨r, evs⟩
  rw [hE] at ht
  dsimp at ht
  cases r with
  | exn m2 => simp [ht, countEv_cons]
  | ok bb =>
    cases bb with
    | false => simp [ht, countEv_cons]
    | true =>
      cases hs : b.searchResp 1 with
      | ok shots =>
        simp [hs, ht, countEv_append, countEv_cons]
      | exn m2 =>
        simp [hs, ht, countEv_append, countEv_cons]

/-- Backend used by witnesses: first search raises a "not indexed"
failure, index listing always reports no indexes, creation succeeds,
so the run times out. -/
def witSceneTimeout : SceneBackend :=
  { videos := []
    ytIdOf := fun _ => none
    uploadResp := Exc.exn "upload failed"
    getVideoResp := fun _ => Exc.ok none
    searchResp := fun _ => Exc.exn "Video not indexed"
    listResp := fun _ => ListResp.ok []
    createResp := Exc.ok ()
    compileResp := Exc.ok "https://stream.example/compiled" }

/-- Backend used by witnesses: the first search returns no shots and
every `list_scene_index` call raises, so readiness is never observed
and the run times out. -/
def witSceneListFail : SceneBackend :=
  { videos := []
    ytIdOf := fun _ => none
    uploadResp := Exc.exn "upload failed"
    getVideoResp := fun _ => Exc.ok none
    searchResp := fun _ => Exc.ok []
    listResp := fun _ => ListResp.exn "connection reset"
    createResp := Exc.ok ()
    compileResp := Exc.ok "https://stream.example/compiled" }

/-- C2: against a video with no existing ready index and a readiness
check that never becomes true, `ensure_scene_index` terminates: after
issuing the create call it performs exactly 30 poll iterations, each a
sleep of 10 time-units followed by a readiness re-check, and returns
`False` (no exception, 300 time-units of sleep in total); the search
orchestrator then surfaces the `INDEXING_TIMEOUT` error code. -/
theorem C2_ensure_timeout (listResp : Nat → ListResp)
    (h : ∀ i, get_ready_index (listResp i) = false)
    (b : SceneBackend) (vid q : JVal)
    (hb : b.listResp = listResp) (hc : b.createResp = Exc.ok ())
    (hfirst : firstAttemptTriggers (b.searchResp 0) = true) :
    ensure_scene_index listResp (Exc.ok ()) =
      (Exc.ok false,
       Ev.listIdx :: Ev.create :: (List.replicate 30 [Ev.sleep 10, Ev.listIdx]).flatten) ∧
    (sceneSearchCore b vid q).1 = sceneTimeoutOut := by
  refine ⟨ensure_neverReady listResp h, ?_⟩
  rw [sceneCore_timeout b vid q (fun i => by rw [hb]; exact h i) hc hfirst]

/-- Witness for C2 at a concrete backend. -/
theorem C2_ensure_timeout_witness :
    ensure_scene_index (fun _ => ListResp.ok []) (Exc.ok ()) =
      (Exc.ok false,
       Ev.listIdx :: Ev.create :: (List.replicate 30 [Ev.sleep 10, Ev.listIdx]).flatten) ∧
    (sceneSearchCore witSceneTimeout (JVal.str "vid_1") (JVal.str "pricing")).1 = sceneTimeoutOut :=
  C2_ensure_timeout (fun _ => ListResp.ok []) (fun _ => rfl) witSceneTimeout
    (JVal.str "vid_1") (JVal.str "pricing") rfl rfl (by decide)

/-- C3: when some existing index descriptor's status contains `"done"`
or `"ready"` case-insensitively, `ensure_scene_index` returns ready
immediately after the single listing call — no create call and no
poll, regardless of how creation would behave. -/
theorem C3_ready_short_circuit (descs : List IndexDescriptor)
    (listResp : Nat → ListResp) (createResp : Exc Unit) (d : IndexDescriptor)
    (hd : d ∈ descs)
    (hready : strContainsSub (lowerStr d.status) "done" = true ∨
              strContainsSub (lowerStr d.status) "ready" = true)
    (hlist : listResp 0 = ListResp.ok descs) :
    ensure_scene_index listResp createResp = (Exc.ok true, [Ev.listIdx]) := by
  have hr : get_ready_index (listResp 0) = true := by
    rw [hlist]
    simp only [get_ready_index, List.any_eq_true]
    refine ⟨d, hd, ?_⟩
    simp only [isReadyStatus, Bool.or_eq_true]
    exact hready
  unfold ensure_scene_index
  rw [hr]
  simp

/-- Witness for C3 at a concrete descriptor list; the create oracle is
an exception, showing creation is not even attempted. -/
theorem C3_ready_short_circuit_witness :
    ensure_scene_index (fun _ => ListResp.ok [⟨"processing"⟩, ⟨"Done"⟩]) (Exc.exn "boom") =
      (Exc.ok true, [Ev.listIdx]) :=
  C3_ready_short_circuit [⟨"processing"⟩, ⟨"Done"⟩] _ _ ⟨"Done"⟩ (by decide)
    (Or.inl (by decide)) rfl

/-- C4: the two attempts treat an empty result set asymmetrically: an
empty first attempt triggers a recovery cycle (at least one readiness
check is performed), while an empty second attempt after a successful
recovery is a valid success outcome with zero results and no error. -/
theorem C4_empty_result_asymmetry (b : SceneBackend) (vid q : JVal) :
    (b.searchResp 0 = Exc.ok [] →
      1 ≤ countEv Ev.listIdx (sceneSearchCore b vid q).2) ∧
    (b.searchResp 0 = Exc.ok [] →
      (ensure_scene_index b.listResp b.createResp).1 = Exc.ok true →
      b.searchResp 1 = Exc.ok [] →
      (sceneSearchCore b vid q).1 = mkSceneSuccess vid q [] none) := by
  constructor
  · intro h0
    unfold sceneSearchCore
    rw [h0]
    dsimp only
    rw [if_pos (show ([] : List Shot).isEmpty = true from rfl), countEv_cons]
    simp only [show (Ev.search = Ev.listIdx) = False by simp, if_false]
    simpa using sceneRecover_listIdx b vid q "No results - may need indexing" (by decide)
  · intro h0 hens hs1
    unfold sceneSearchCore
    rw [h0]
    dsimp only
    rw [if_pos (show ([] : List Shot).isEmpty = true from rfl)]
    unfold sceneRecover
    rw [if_pos (by decide : sceneNeedsIdx "No results - may need indexing" = true)]
    rcases hE : ensure_scene_index b.listResp b.createResp with ⟨r, evs⟩
    rw [hE] at hens
    dsimp at hens
    subst hens
    rw [hs1]
    simp [sceneFinish, mkSceneSuccess]

/-- Witness for C4 at a concrete backend: an existing ready index, an
empty first attempt and an empty second attempt. -/
def witSceneEmpty : SceneBackend :=
  { videos := []
    ytIdOf := fun _ => none
    uploadResp := Exc.exn "upload failed"
    getVideoResp := fun _ => Exc.ok none
    searchResp := fun _ => Exc.ok []
    listResp := fun _ => ListResp.ok [⟨"done"⟩]
    createResp := Exc.exn "never called"
    compileResp := Exc.ok "https://stream.example/compiled" }

theorem C4_empty_result_asymmetry_witness :
    1 ≤ countEv Ev.listIdx
      (sceneSearchCore witSceneEmpty (JVal.str "vid_1") (JVal.str "red car")).2 ∧
    (sceneSearchCore witSceneEmpty (JVal.str "vid_1") (JVal.str "red car")).1 =
      mkSceneSuccess (JVal.str "vid_1") (JVal.str "red car") [] none :=
  ⟨(C4_empty_result_asymmetry witSceneEmpty (JVal.str "vid_1") (JVal.str "red car")).1 rfl,
   (C4_empty_result_asymmetry witSceneEmpty (JVal.str "vid_1") (JVal.str "red car")).2 rfl
     (by decide) rfl⟩

/-- C10: `get_ready_index` swallows every exception from listing or
classifying the indexes and reports not-ready; consequently, when
every listing call fails, the orchestrator issues the create call,
exhausts all 30 poll iterations and reports `INDEXING_TIMEOUT` instead
of surfacing the listing error. -/
theorem C10_listing_errors_swallowed :
    (∀ m, get_ready_index (ListResp.exn m) = false) ∧
    get_ready_index ListResp.attrErr = false ∧
    ∀ (b : SceneBackend) (vid q : JVal),
      (∀ i, ∃ m, b.listResp i = ListResp.exn m) →
      b.createResp = Exc.ok () →
      firstAttemptTriggers (b.searchResp 0) = true →
      sceneSearchCore b vid q =
        (sceneTimeoutOut,
         Ev.search :: Ev.listIdx :: Ev.create ::
           (List.replicate 30 [Ev.sleep 10, Ev.listIdx]).flatten) := by
  refine ⟨fun m => rfl, rfl, fun b vid q hl hc hfirst => ?_⟩
  have h : ∀ i, get_ready_index (b.listResp i) = false := by
    intro i
    obtain ⟨m, hm⟩ := hl i
    rw [hm]
    rfl
  exact sceneCore_timeout b vid q h hc hfirst

/-- Witness for C10 at a concrete backend whose listing calls always
raise. -/
theorem C10_listing_errors_swallowed_witness :
    get_ready_index (ListResp.exn "connection reset") = false ∧
    sceneSearchCore witSceneListFail (JVal.str "vid_1") (JVal.str "red car") =
      (sceneTimeoutOut,
       Ev.search :: Ev.listIdx :: Ev.create ::
         (List.replicate 30 [Ev.sleep 10, Ev.listIdx]).flatten) :=
  ⟨C10_listing_errors_swallowed.1 "connection reset",
   C10_listing_errors_swallowed.2.2 witSceneListFail (JVal.str "vid_1") (JVal.str "red car")
     (fun _ => ⟨"connection reset", rfl⟩) rfl (by decide)⟩

/-- C5: a first-attempt search failure whose lower-cased text contains
neither `"not indexed"` nor `"index"` triggers no recovery and no
second search call; the run performs exactly one search event and
surfaces the generic `SEARCH_ERROR` code with the backend's raw error
text as the message. -/
theorem C5_unmatched_error_propagates (env : EnvModel) (b : SearchBackend)
    (k : String) (q vid : JVal) (v : VideoH) (m : String)
    (hdep : env.hasVideodb = true)
    (hkey : env.apiKey = some k)
    (hk : k.isEmpty = false)
    (hvid : vid.truthy = true)
    (hget : b.getVideoResp vid = Exc.ok (some v))
    (hsearch : b.videoSearch 0 = Exc.exn m)
    (hni : strContainsSub (lowerStr m) "not indexed" = false)
    (hidx : strContainsSub (lowerStr m) "index" = false) :
    search_videodb env b q vid JVal.null (JVal.str "video")
        (JVal.str "semantic") (JVal.str "spoken_word") =
      (PyResult.ret { success := false, error := some "SEARCH_ERROR", message := some m },
       [Ev.search]) := by
  simp +decide [search_videodb, hdep, hkey, hk, hvid, searchBody, hget,
    searchAttempt, hsearch, hni, hidx, searchHandler]

/-- Witness for C5 at a concrete backend whose first attempt raises an
unclassified error. -/
def witSearchErr : SearchBackend :=
  { videos := []
    ytIdOf := fun _ => none
    uploadResp := Exc.exn "upload failed"
    getVideoResp := fun _ => Exc.ok (some { id := "vid_1" })
    videoSearch := fun _ => Exc.exn "Rate limit exceeded"
    collectionSearch := Exc.ok []
    indexUrlResp := Exc.ok ()
    indexRetryResp := Exc.ok ()
    compileResp := Exc.ok "https://stream.example/compiled" }

theorem C5_unmatched_error_propagates_witness :
    search_videodb { hasVideodb := true, apiKey := some "key" } witSearchErr
        (JVal.str "pricing") (JVal.str "vid_1") JVal.null (JVal.str "video")
        (JVal.str "semantic") (JVal.str "spoken_word") =
      (PyResult.ret { success := false, error := some "SEARCH_ERROR",
                      message := some "Rate limit exceeded" },
       [Ev.search]) :=
  C5_unmatched_error_propagates { hasVideodb := true, apiKey := some "key" } witSearchErr
    "key" (JVal.str "pricing") (JVal.str "vid_1") { id := "vid_1" } "Rate limit exceeded"
    rfl rfl rfl rfl rfl rfl (by decide) (by decide)

/-- The first element satisfying a predicate, placed after a block of
non-satisfying elements, is what the linear scan finds. -/
theorem find?_first {α : Type} (p : α → Bool) (l₁ l₂ : List α) (v : α)
    (h₁ : ∀ w ∈ l₁, p w = false) (hv : p v = true) :
    (l₁ ++ v :: l₂).find? p = some v := by
  induction l₁ with
  | nil => simpa using List.find?_cons_of_pos l₂ hv
  | cons a as ih =>
    have ha : p a = false := h₁ a (List.mem_cons_self a as)
    rw [List.cons_append, List.find?_cons_of_neg _ (by simp [ha])]
    exact ih (fun w hw => h₁ w (List.mem_cons_of_mem a hw))

/-- C6: with no extractable URL token the dedup predicate never
matches; when a token matches some video's `name + source`, both
resolvers return the first match in enumeration order with no upload
event; when the scan finds no match, both resolvers upload (exactly
one upload event) and return the uploaded handle — upload happens if
and only if the scan finds no match. -/
theorem C6_url_dedup :
    (∀ v : VideoH, urlMatch none v = false) ∧
    (∀ (t : String) (l₁ l₂ : List VideoH) (v : VideoH) (upl : Exc VideoH),
      (∀ w ∈ l₁, urlMatch (some t) w = false) →
      urlMatch (some t) v = true →
      get_video_from_url_scene (some t) (l₁ ++ v :: l₂) upl = (Exc.ok v, []) ∧
      get_video_from_url (some t) (l₁ ++ v :: l₂) upl = (Exc.ok (v, false), [])) ∧
    (∀ (yt : Option String) (videos : List VideoH) (upl : Exc VideoH),
      (∀ w ∈ videos, urlMatch yt w = false) →
      (get_video_from_url_scene yt videos upl).2 = [Ev.upload] ∧
      (get_video_from_url yt videos upl).2 = [Ev.upload] ∧
      ∀ u, upl = Exc.ok u →
        get_video_from_url_scene yt videos upl = (Exc.ok u, [Ev.upload]) ∧
        get_video_from_url yt videos upl = (Exc.ok (u, true), [Ev.upload])) := by
  refine ⟨fun v => rfl, ?_, ?_⟩
  · intro t l₁ l₂ v upl h₁ hv
    have hf := find?_first (urlMatch (some t)) l₁ l₂ v h₁ hv
    constructor
    · unfold get_video_from_url_scene
      rw [hf]
    · unfold get_video_from_url
      rw [hf]
  · intro yt videos upl hall
    have hf : videos.find? (urlMatch yt) = none := by
      rw [List.find?_eq_none]
      intro x hx
      simp [hall x hx]
    refine ⟨?_, ?_, ?_⟩
    · unfold get_video_from_url_scene
      rw [hf]
      cases upl <;> rfl
    · unfold get_video_from_url
      rw [hf]
      cases upl <;> rfl
    · intro u hu
      subst hu
      constructor
      · unfold get_video_from_url_scene
        rw [hf]
      · unfold get_video_from_url
        rw [hf]

/-- Witness for C6: the spec's scenario — the token `"abc123"` from
`https://youtu.be/abc123` matches an existing video, so that handle is
returned with no upload attempted (the upload oracle is an exception);
and a non-matching token leads to an upload. -/
theorem C6_url_dedup_witness :
    get_video_from_url (some "abc123")
        [{ id := "vid_0", name := "other clip", source := "https://v.example/zzz" },
         { id := "vid_1", name := "demo", source := "https://youtu.be/abc123" }]
        (Exc.exn "upload must not happen") =
      (Exc.ok ({ id := "vid_1", name := "demo", source := "https://youtu.be/abc123" }, false),
       []) ∧
    get_video_from_url (some "zzz999")
        [{ id := "vid_0", name := "other clip", source := "https://v.example/qqq" }]
        (Exc.ok { id := "vid_new" }) =
      (Exc.ok ({ id := "vid_new" }, true), [Ev.upload]) :=
  ⟨(C6_url_dedup.2.1 "abc123"
      [{ id := "vid_0", name := "other clip", source := "https://v.example/zzz" }] []
      { id := "vid_1", name := "demo", source := "https://youtu.be/abc123" }
      (Exc.exn "upload must not happen") (by decide) (by decide)).2,
   ((C6_url_dedup.2.2 (some "zzz999")
      [{ id := "vid_0", name := "other clip", source := "https://v.example/qqq" }]
      (Exc.ok { id := "vid_new" }) (by decide)).2.2
      { id := "vid_new" } rfl).2⟩

/-- C7: formatting rounds `start` and `end` to 1 decimal place, and
the score is the first present value among `search_score`, `score`,
`relevance_score`, `confidence` rounded to 3 decimals, or `None` when
all four are absent; in particular the raw shot `start=12.34`,
`end=45.678`, `search_score=0.8321` formats to
`start=12.3`, `end=45.7`, `score=0.832` in both skills. -/
theorem C7_format_round_trip :
    (formatShot { start := mkRat 617 50, «end» := mkRat 22839 500,
                  search_score := some (mkRat 8321 10000) } =
      { start := mkRat 123 10, «end» := mkRat 457 10, description := "",
        score := some (mkRat 832 1000), stream_url := none }) ∧
    (formatShotS (JVal.str "vid_1")
        { start := mkRat 617 50, «end» := mkRat 22839 500,
          search_score := some (mkRat 8321 10000) } =
      { video_id := JVal.str "vid_1", start := mkRat 123 10, «end» := mkRat 457 10,
        text := "", score := some (mkRat 832 1000), stream_url := none }) ∧
    (∀ s : Shot, (formatShot s).start = pyRound s.start 1 ∧
      (formatShot s).«end» = pyRound s.«end» 1) ∧
    (∀ (s : Shot) (v : Rat), s.search_score = some v →
      (formatShot s).score = some (pyRound v 3)) ∧
    (∀ (s : Shot) (v : Rat), s.search_score = none → s.score = some v →
      (formatShot s).score = some (pyRound v 3)) ∧
    (∀ (s : Shot) (v : Rat), s.search_score = none → s.score = none →
      s.relevance_score = some v → (formatShot s).score = some (pyRound v 3)) ∧
    (∀ (s : Shot) (v : Rat), s.search_score = none → s.score = none →
      s.relevance_score = none → s.confidence = some v →
      (formatShot s).score = some (pyRound v 3)) ∧
    (∀ s : Shot, s.search_score = none → s.score = none → s.relevance_score = none →
      s.confidence = none → (formatShot s).score = none) := by
  refine ⟨by decide, rfl, ?_, ?_, ?_, ?_, ?_, ?_⟩
  · intro s
    exact ⟨rfl, rfl⟩
  · intro s v h
    simp [formatShot, extractScore, h]
  · intro s v h1 h2
    simp [formatShot, extractScore, h1, h2]
  · intro s v h1 h2 h3
    simp [formatShot, extractScore, h1, h2, h3]
  · intro s v h1 h2 h3 h4
    simp [formatShot, extractScore, h1, h2, h3, h4]
  · intro s h1 h2 h3 h4
    simp [formatShot, extractScore, h1, h2, h3, h4]

/-- Witness for C7 at a concrete shot whose only score field is
`relevance_score`. -/
theorem C7_format_round_trip_witness :
    (formatShot { start := mkRat 1 1, «end» := mkRat 2 1,
                  relevance_score := some (mkRat 1 2) }).score =
      some (pyRound (mkRat 1 2) 3) :=
  C7_format_round_trip.2.2.2.2.2.1
    { start := mkRat 1 1, «end» := mkRat 2 1, relevance_score := some (mkRat 1 2) }
    (mkRat 1 2) rfl rfl rfl

/-- C9: in both skills the stream-compilation call happens exactly
when the formatted shot sequence is non-empty; with zero shots the
success output carries `compiled_stream_url = None` and no compile
event occurs. -/
theorem C9_compile_iff_nonempty (c : Exc String) (vid q scope : JVal)
    (shots : List Shot) :
    (countEv Ev.compile (sceneFinish c vid q shots).2 =
      if (shots.map formatShot).isEmpty then 0 else 1) ∧
    (countEv Ev.compile (searchFinish c q scope vid shots).2 =
      if (shots.map (formatShotS vid)).isEmpty then 0 else 1) ∧
    (shots = [] →
      sceneFinish c vid q shots = (mkSceneSuccess vid q [] none, []) ∧
      searchFinish c q scope vid shots = (mkSearchSuccess q scope vid [] none, [])) := by
  refine ⟨?_, ?_, ?_⟩
  · cases shots with
    | nil => simp [sceneFinish, countEv_nil]
    | cons a l => cases c <;> simp +decide [sceneFinish, countEv_cons, countEv_nil]
  · cases shots with
    | nil => simp [searchFinish, countEv_nil]
    | cons a l => cases c <;> simp +decide [searchFinish, countEv_cons, countEv_nil]
  · intro h
    subst h
    exact ⟨rfl, rfl⟩

/-- Witness for C9 at the empty shot list. -/
theorem C9_compile_iff_nonempty_witness :
    sceneFinish (Exc.ok "https://stream.example/compiled") (JVal.str "vid_1")
        (JVal.str "pricing") [] =
      (mkSceneSuccess (JVal.str "vid_1") (JVal.str "pricing") [] none, []) ∧
    searchFinish (Exc.ok "https://stream.example/compiled") (JVal.str "pricing")
        (JVal.str "video") (JVal.str "vid_1") [] =
      (mkSearchSuccess (JVal.str "pricing") (JVal.str "video") (JVal.str "vid_1") [] none,
       []) :=
  (C9_compile_iff_nonempty (Exc.ok "https://stream.example/compiled") (JVal.str "vid_1")
    (JVal.str "pricing") (JVal.str "video") []).2.2 rfl

theorem searchFinish_search_count (c : Exc String) (q scope vid : JVal)
    (shots : List Shot) : countEv Ev.search (searchFinish c q scope vid shots).2 = 0 := by
  cases shots with
  | nil => rfl
  | cons a l => cases c <;> rfl

theorem sceneFinish_search_count (c : Exc String) (vid q : JVal)
    (shots : List Shot) : countEv Ev.search (sceneFinish c vid q shots).2 = 0 := by
  cases shots with
  | nil => rfl
  | cons a l => cases c <;> rfl

theorem ensure_indexed_events (r : Exc Unit) : (ensure_indexed r).2 = [Ev.create] := rfl

theorem pollScene_search_count (lr : Nat → ListResp) :
    ∀ fuel i, countEv Ev.search (pollScene lr fuel i).2 = 0 := by
  intro fuel
  induction fuel with
  | zero => intro i; rfl
  | succ n ih =>
    intro i
    unfold pollScene
    by_cases h : get_ready_index (lr i) = true
    · rw [h]
      rfl
    · rw [Bool.of_not_eq_true h, if_neg Bool.false_ne_true]
      dsimp only
      rw [countEv_cons, countEv_cons, ih (i + 1)]
      rfl

theorem ensure_search_count (lr : Nat → ListResp) (cr : Exc Unit) :
    countEv Ev.search (ensure_scene_index lr cr).2 = 0 := by
  unfold ensure_scene_index
  by_cases h : get_ready_index (lr 0) = true
  · rw [h]
    rfl
  · rw [Bool.of_not_eq_true h, if_neg Bool.false_ne_true]
    cases cr with
    | exn m => rfl
    | ok u =>
      dsimp only
      rw [countEv_cons, countEv_cons, pollScene_search_count lr 30 1]
      rfl

theorem get_video_scene_search_count (yt : Option String) (videos : List VideoH)
    (upl : Exc VideoH) :
    countEv Ev.search (get_video_from_url_scene yt videos upl).2 = 0 := by
  unfold get_video_from_url_scene
  cases videos.find? (urlMatch yt) with
  | some v => rfl
  | none => cases upl <;> rfl

theorem get_video_search_count (yt : Option String) (videos : List VideoH)
    (upl : Exc VideoH) :
    countEv Ev.search (get_video_from_url yt videos upl).2 = 0 := by
  unfold get_video_from_url
  cases videos.find? (urlMatch yt) with
  | some v => rfl
  | none => cases upl <;> rfl

theorem searchAttempt_search_count (b : SearchBackend) (q scope vid : JVal) :
    countEv Ev.search (searchAttempt b q scope vid).2 ≤ 2 := by
  unfold searchAttempt
  cases b.videoSearch 0 with
  | ok shots =>
    dsimp only
    rw [countEv_cons, searchFinish_search_count]
    simp
  | exn m =>
    dsimp only
    by_cases hcl : (strContainsSub (lowerStr m) "not indexed" ||
        strContainsSub (lowerStr m) "index") = true
    · rw [if_pos hcl]
      rcases hE : ensure_indexed b.indexRetryResp with ⟨r, evs⟩
      have hevs : evs = [Ev.create] := by
        have := ensure_indexed_events b.indexRetryResp
        rw [hE] at this
        exact this
      subst hevs
      cases r with
      | exn m2 => simp [countEv_cons, countEv_nil]
      | ok u =>
        cases b.videoSearch 1 with
        | ok shots =>
          simp [countEv_cons, countEv_append, countEv_nil, searchFinish_search_count]
        | exn m2 => simp [countEv_cons, countEv_append, countEv_nil]
    · rw [if_neg hcl]
      simp [countEv_cons, countEv_nil]

theorem searchBody_search_count (b : SearchBackend) (query vid url scope : JVal) :
    countEv Ev.search (searchBody b query vid url scope).2 ≤ 2 := by
  unfold searchBody
  by_cases hs : scope.eqStr "collection" = true
  · rw [if_pos hs]
    cases b.collectionSearch with
    | exn m => simp [countEv_cons, countEv_nil]
    | ok shots =>
      dsimp only
      rw [countEv_cons, searchFinish_search_count]
      simp
  · rw [if_neg hs]
    by_cases hu : url.truthy = true
    · rw [if_pos hu]
      cases url with
      | str us =>
        dsimp only
        rcases hg : get_video_from_url (b.ytIdOf us) b.videos b.uploadResp with ⟨r, evs⟩
        have hevs : countEv Ev.search evs = 0 := by
          have := get_video_search_count (b.ytIdOf us) b.videos b.uploadResp
          rw [hg] at this
          exact this
        cases r with
        | exn m =>
          dsimp only
          omega
        | ok p =>
          rcases p with ⟨v, isNew⟩
          rcases hEI : ensure_indexed b.indexUrlResp with ⟨r2, evs2⟩
          have hevs2 : evs2 = [Ev.create] := by
            have := ensure_indexed_events b.indexUrlResp
            rw [hEI] at this
            exact this
          subst hevs2
          cases r2 with
          | exn m2 =>
            dsimp only
            rw [countEv_append, hevs]
            simp [countEv_cons, countEv_nil]
          | ok u =>
            have hA := searchAttempt_search_count b query scope (JVal.str v.id)
            dsimp only
            rw [countEv_append, countEv_append, hevs]
            simp [countEv_cons, countEv_nil]
            omega
      | null => simp [countEv_nil]
      | bool bb => simp [countEv_nil]
      | num n => simp [countEv_nil]
      | arr l => simp [countEv_nil]
      | obj l => simp [countEv_nil]
    · rw [if_neg hu]
      cases b.getVideoResp vid with
      | exn m => simp [countEv_nil]
      | ok o =>
        cases o with
        | none => simp [countEv_nil]
        | some v => exact searchAttempt_search_count b query scope vid

theorem search_videodb_search_count (env : EnvModel) (b : SearchBackend)
    (query vid url scope st it : JVal) :
    countEv Ev.search (search_videodb env b query vid url scope st it).2 ≤ 2 := by
  unfold search_videodb
  repeat' split
  all_goals try dsimp only
  all_goals first
    | exact searchBody_search_count b query vid url scope
    | simp [countEv_nil]

theorem sceneRecover_search_count (b : SceneBackend) (vid q : JVal) (m : String) :
    countEv Ev.search (sceneRecover b vid q m).2 ≤ 1 := by
  unfold sceneRecover
  by_cases hm : sceneNeedsIdx m = true
  · rw [if_pos hm]
    rcases hE : ensure_scene_index b.listResp b.createResp with ⟨r, evs⟩
    have hevs : countEv Ev.search evs = 0 := by
      have := ensure_search_count b.listResp b.createResp
      rw [hE] at this
      exact this
    cases r with
    | exn m2 => simpa using Nat.le_of_eq hevs |>.trans (by omega)
    | ok bb =>
      cases bb with
      | false => simpa using Nat.le_of_eq hevs |>.trans (by omega)
      | true =>
        cases b.searchResp 1 with
        | ok shots =>
          dsimp only
          rw [countEv_append, countEv_cons, hevs, sceneFinish_search_count]
          simp
        | exn m2 =>
          dsimp only
          rw [countEv_append, hevs]
          simp [countEv_cons, countEv_nil]
  · rw [if_neg hm]
    simp [countEv_nil]

theorem sceneSearchCore_search_count (b : SceneBackend) (vid q : JVal) :
    countEv Ev.search (sceneSearchCore b vid q).2 ≤ 2 := by
  unfold sceneSearchCore
  cases b.searchResp 0 with
  | ok shots =>
    dsimp only
    by_cases he : shots.isEmpty = true
    · rw [if_pos he]
      dsimp only
      rw [countEv_cons]
      have := sceneRecover_search_count b vid q "No results - may need indexing"
      simp only [show (Ev.search = Ev.search) = True by simp, if_true]
      omega
    · rw [if_neg he]
      dsimp only
      rw [countEv_cons, sceneFinish_search_count]
      simp
  | exn m =>
    dsimp only
    rw [countEv_cons]
    have := sceneRecover_search_count b vid q m
    simp only [show (Ev.search = Ev.search) = True by simp, if_true]
    omega

theorem sceneDispatch_search_count (b : SceneBackend) (vid query action : JVal) :
    countEv Ev.search (sceneDispatch b vid query action).2 ≤ 2 := by
  unfold sceneDispatch
  repeat' split
  all_goals try dsimp only
  all_goals first
    | exact sceneSearchCore_search_count b vid query
    | simp [countEv_nil, countEv_cons]

theorem sceneResolve_search_count (b : SceneBackend) (vid url action query : JVal) :
    countEv Ev.search (sceneResolve b vid url action query).2 ≤ 2 := by
  unfold sceneResolve
  by_cases hu : url.truthy = true
  · rw [if_pos hu]
    cases url with
    | str us =>
      dsimp only
      rcases hg : get_video_from_url_scene (b.ytIdOf us) b.videos b.uploadResp with ⟨r, evs⟩
      have hevs : countEv Ev.search evs = 0 := by
        have := get_video_scene_search_count (b.ytIdOf us) b.videos b.uploadResp
        rw [hg] at this
        exact this
      cases r with
      | exn m =>
        dsimp only
        omega
      | ok v =>
        have hD := sceneDispatch_search_count b (JVal.str v.id) query action
        dsimp only
        rw [countEv_append, hevs]
        omega
    | null => simp [countEv_nil]
    | bool bb => simp [countEv_nil]
    | num n => simp [countEv_nil]
    | arr l => simp [countEv_nil]
    | obj l => simp [countEv_nil]
  · rw [if_neg hu]
    cases b.getVideoResp vid with
    | exn m => simp [countEv_nil]
    | ok o =>
      cases o with
      | none => simp [countEv_nil]
      | some v => exact sceneDispatch_search_count b vid query action

theorem scene_index_search_count (env : EnvModel) (b : SceneBackend)
    (vid url action query : JVal) :
    countEv Ev.search (scene_index env b vid url action query).2 ≤ 2 := by
  unfold scene_index
  repeat' split
  all_goals try dsimp only
  all_goals first
    | exact sceneResolve_search_count b vid url action query
    | simp [countEv_nil]

/-- C1: neither skill ever issues more than two underlying backend
search calls in a single run, over every environment, every backend
behaviour and every JSON-object input. -/
theorem C1_at_most_two_search_calls :
    (∀ (env : EnvModel) (b : SearchBackend) (args : List (String × JVal)),
      countEv Ev.search (mainSearch env b args).2 ≤ 2) ∧
    (∀ (env : EnvModel) (b : SceneBackend) (args : List (String × JVal)),
      countEv Ev.search (mainScene env b args).2 ≤ 2) := by
  constructor
  · intro env b args
    unfold mainSearch
    repeat' split
    all_goals try dsimp only
    all_goals first
      | exact search_videodb_search_count env b (getArg args "query" JVal.null)
          (getArg args "video_id" JVal.null) (getArg args "url" JVal.null)
          (getArg args "scope" (JVal.str "video"))
          (getArg args "search_type" (JVal.str "semantic"))
          (getArg args "index_type" (JVal.str "spoken_word"))
      | simp [countEv_nil]
  · intro env b args
    unfold mainScene
    repeat' split
    all_goals try dsimp only
    all_goals first
      | exact scene_index_search_count env b (getArg args "video_id" JVal.null)
          (getArg args "url" JVal.null) (getArg args "action" (JVal.str "search"))
          (getArg args "query" JVal.null)
      | simp [countEv_nil]

/-- A well-formed process environment used by witnesses. -/
def env0 : EnvModel := { hasVideodb := true, apiKey := some "key" }

/-- When `search_type` and `index_type` are strings, `search_videodb`
returns a dictionary — the only `raised` exits are the `.lower()`
calls on a non-string value. -/
theorem search_videodb_ret (env : EnvModel) (b : SearchBackend)
    (query vid url scope st it : JVal)
    (hst : isStrJV st = true) (hit : isStrJV it = true) :
    ∃ out evs, search_videodb env b query vid url scope st it = (PyResult.ret out, evs) := by
  cases st with
  | str sts =>
    cases it with
    | str its =>
      unfold search_videodb
      dsimp only
      repeat' split
      all_goals exact ⟨_, _, rfl⟩
    | null => simp [isStrJV] at hit
    | bool bb => simp [isStrJV] at hit
    | num n => simp [isStrJV] at hit
    | arr l => simp [isStrJV] at hit
    | obj l => simp [isStrJV] at hit
  | null => simp [isStrJV] at hst
  | bool bb => simp [isStrJV] at hst
  | num n => simp [isStrJV] at hst
  | arr l => simp [isStrJV] at hst
  | obj l => simp [isStrJV] at hst

/-- C8 counterexample: a JSON-object input with an unrecognized key
(`"bogus"`) makes `search_videodb(**args)` raise `TypeError`; the
exception crosses the process boundary and no JSON object is printed,
refuting the claim as stated. -/
theorem C8_uncaught_counterexample :
    (mainSearch env0 witSearchErr
        [("query", JVal.str "q"), ("bogus", JVal.num (mkRat 1 1))]).1 =
      MainResult.uncaught "TypeError: search_videodb() got an unexpected keyword argument" :=
  rfl

/-- C8 (amended): for every JSON-object input whose keys are all
declared parameters of the skill entry function and whose
`search_type`/`index_type` fields (search skill) are strings when
present, each skill's `main` prints exactly one JSON object with a
boolean `success` field and exits with code 0 exactly when `success`
is true; no exception escapes. -/
theorem C8_main_contract (env : EnvModel) (bs : SearchBackend) (bc : SceneBackend)
    (args args2 : List (String × JVal))
    (hkeys : (args.all fun p => searchParams.contains p.1) = true)
    (hst : isStrJV (getArg args "search_type" (JVal.str "semantic")) = true)
    (hit : isStrJV (getArg args "index_type" (JVal.str "spoken_word")) = true)
    (hkeys2 : (args2.all fun p => sceneParams.contains p.1) = true) :
    (∃ out evs, mainSearch env bs args =
      (MainResult.printed out (if out.success then 0 else 1), evs)) ∧
    (∃ out evs, mainScene env bc args2 =
      (MainResult.printed out (if out.success then 0 else 1), evs)) := by
  constructor
  · unfold mainSearch
    by_cases hq : (args.any fun p => p.1 == "query") = true
    · simp only [hq, hkeys, Bool.not_true, Bool.false_eq_true, if_false]
      obtain ⟨out, evs, hr⟩ := search_videodb_ret env bs (getArg args "query" JVal.null)
        (getArg args "video_id" JVal.null) (getArg args "url" JVal.null)
        (getArg args "scope" (JVal.str "video"))
        (getArg args "search_type" (JVal.str "semantic"))
        (getArg args "index_type" (JVal.str "spoken_word")) hst hit
      refine ⟨out, evs, ?_⟩
      dsimp only
      rw [hr]
    · rw [Bool.of_not_eq_true hq]
      exact ⟨_, [], rfl⟩
  · unfold mainScene
    by_cases hc : (!(args2.any fun p => p.1 == "video_id") &&
        !(args2.any fun p => p.1 == "url")) = true
    · rw [if_pos hc]
      exact ⟨_, [], rfl⟩
    · rw [if_neg hc]
      simp only [hkeys2, Bool.not_true, Bool.false_eq_true, if_false]
      exact ⟨(scene_index env bc (getArg args2 "video_id" JVal.null)
          (getArg args2 "url" JVal.null) (getArg args2 "action" (JVal.str "search"))
          (getArg args2 "query" JVal.null)).1, _, rfl⟩

/-- Witness for C8 (amended) at concrete well-formed inputs. -/
theorem C8_main_contract_witness :
    (∃ out evs, mainSearch env0 witSearchErr
        [("query", JVal.str "pricing"), ("video_id", JVal.str "vid_1")] =
      (MainResult.printed out (if out.success then 0 else 1), evs)) ∧
    (∃ out evs, mainScene env0 witSceneTimeout
        [("video_id", JVal.str "vid_1"), ("action", JVal.str "list")] =
      (MainResult.printed out (if out.success then 0 else 1), evs)) :=
  C8_main_contract env0 witSearchErr witSceneTimeout
    [("query", JVal.str "pricing"), ("video_id", JVal.str "vid_1")]
    [("video_id", JVal.str "vid_1"), ("action", JVal.str "list")]
    (by decide) (by decide) (by decide) (by decide)

end AgentToolkit
